import Mathlib

/-!
# Verification of `kaolin/graphics/SoftRenderer.py`

Shallow embedding of the `SoftRenderer` class (soft rasterizer facade) and
proofs about its camera pipeline, lighting orchestration, back-face filling,
output-channel handling and constructor behaviour.

Modelling conventions:
* float32 tensors are modelled with exact reals; tensors are nested lists
  (outermost dimension first);
* the external collaborators that are imported but not part of this file's
  source (`compute_ambient_light`, `compute_directional_light`,
  `soft_rasterize`) are passed to `render`/`lighting` as function arguments
  and universally quantified in the theorems;
* Python exceptions (UnboundLocalError, AttributeError, IndexError) are
  modelled with `Except String`; attributes that `__init__` sets only on
  some `camera_mode` paths are `Option`-valued fields.
-/

set_option maxHeartbeats 1000000
set_option linter.unusedVariables false

noncomputable section

namespace KaolinSoftRenderer

/-- Row vector with three real coordinates (a row of a `B × V × 3` tensor). -/
structure Vec3 where
  x : ℝ
  y : ℝ
  z : ℝ

/-- Componentwise subtraction of 3-vectors. -/
def vsub (a b : Vec3) : Vec3 := ⟨a.x - b.x, a.y - b.y, a.z - b.z⟩

/-- Scalar multiplication of a 3-vector. -/
def vscale (c : ℝ) (v : Vec3) : Vec3 := ⟨c * v.x, c * v.y, c * v.z⟩

/-- Euclidean inner product of 3-vectors. -/
def dot (a b : Vec3) : ℝ := a.x * b.x + a.y * b.y + a.z * b.z

/-- Cross product of 3-vectors (`torch.cross` on the length-3 dimension). -/
def cross (a b : Vec3) : Vec3 :=
  ⟨a.y * b.z - a.z * b.y, a.z * b.x - a.x * b.z, a.x * b.y - a.y * b.x⟩

/-- Euclidean norm of a 3-vector. -/
def vnorm (v : Vec3) : ℝ := Real.sqrt (dot v v)

/-- Exact mathematical normalization (division by the norm). -/
def vnormalize (v : Vec3) : Vec3 := vscale (1 / vnorm v) v

/-- Torch eps-guarded normalize `torch.nn.functional.normalize(v, eps)`: division by `max ‖v‖ eps`. -/
def normalizeEps (eps : ℝ) (v : Vec3) : Vec3 := vscale (1 / max (vnorm v) eps) v

/-- Color triple (one pixel / one texture sample, 3 channels). -/
abbrev Color3 := Fin 3 → ℝ

/-- The 4 × 4 intrinsics / rotation matrices of projection mode. -/
abbrev Mat4 := Fin 4 → Fin 4 → ℝ

/-- One triangle: a triple of (64-bit signed) vertex indices. -/
abbrev Face := Int × Int × Int

/-- Batched vertices, `B × V × 3`. -/
abbrev Verts := List (List Vec3)

/-- Batched faces, `B × F × 3`. -/
abbrev Faces := List (List Face)

/-- One face's texture block: sample-grid index (`4 × 4 × 4` grid, kept
abstract as `S`) to channel values. -/
def TexElem (S : Type) := S → Color3

/-- Batched textures, `B × F × (sample grid) × 3`. -/
abbrev Textures (S : Type) := List (List (TexElem S))

/-- Gathered per-face corner positions (one row of `vertices_to_faces`). -/
abbrev FaceVerts := Vec3 × Vec3 × Vec3

/-- Raw output of the external lighting collaborators for one face: the two
extra singleton compatibility dimensions (NMR 6-D layout) in front of the
channel dimension. Modelled from the spec: the `Lighting` module is not part
of this source file; the spec states each light function returns a per-face
tensor with two extra singleton dimensions. -/
abbrev LightRaw := Fin 1 → Fin 1 → Color3

/-- Type of the external `compute_ambient_light` / `compute_directional_light`
collaborators: face corner positions, textures, intensity and color to a
batched per-face `LightRaw` tensor. -/
abbrev LightFn (S : Type) :=
  List (List FaceVerts) → Textures S → ℝ → Color3 → List (List LightRaw)

/-- Output of the external `soft_rasterize` collaborator: a
`B × C × H × W` image tensor (4 channels: RGB + depth). -/
abbrev RastOut := List (List (List (List ℝ)))

/-- Type of the external `soft_rasterize` collaborator. -/
abbrev RastFn (S : Type) := Verts → Textures S → RastOut

/-- Depth channel as returned by `render`: `B × H × W`, or `B × 1 × H × W`
after the `unsqueeze(1)` applied when the batch size is 1. -/
abbrev DepthOut := List (List (List ℝ)) ⊕ List (List (List (List ℝ)))

/-- Return value of `render`: RGB channels, depth channel, and the always
`None` alpha placeholder. -/
abbrev RenderOut := RastOut × DepthOut × Option RastOut

/-- State of a constructed `SoftRenderer`.  Attributes that `__init__` sets
only on some `camera_mode` paths (`K`, `rmat`, `tvec` for projection;
`perspective_distort`, `viewing_angle`, `eye`, `camera_direction` for
look/look_at) are `Option`-valued: `none` means the Python attribute was
never assigned, so reading it raises `AttributeError`.  The
`self.soft_rasterizer` object built at the end of `__init__` is external
(`softras.rasterizer`) and never used by `render`, so it is not modelled. -/
structure SoftRendererState where
  image_size : ℕ
  anti_aliasing : Bool
  bg_color : Color3
  fill_back : Bool
  device : String
  camera_mode : String
  K : Option Mat4
  rmat : Option Mat4
  tvec : Option Vec3
  perspective_distort : Option Bool
  viewing_angle : Option ℝ
  eye : Option Vec3
  camera_direction : Option Vec3
  near : ℝ
  far : ℝ
  sigma_val : ℝ
  dist_func : String
  dist_eps : ℝ
  gamma_val : ℝ
  aggr_func_rgb : String
  aggr_func_alpha : String
  texture_type : String
  light_intensity_ambient : ℝ
  light_intensity_directional : ℝ
  light_color_ambient : Color3
  light_color_directional : Color3
  light_direction : Vec3
  rasterizer_eps : ℝ

/-- The z-coordinate of `self.eye` computed by `__init__` in look/look_at
mode: `-(1 / tan(π · viewing_angle / 180) + 1)`. -/
def initEyeZ (viewing_angle : ℝ) : ℝ :=
  -(1 / Real.tan (Real.pi * viewing_angle / 180) + 1)

/-- The constructor `SoftRenderer.__init__`.  The `eye_arg` parameter mirrors the
constructor's `eye` argument, which the body never reads (`self.eye` is
recomputed from `viewing_angle` in the look/look_at branch; in projection
mode it is never assigned).  The body contains no `raise` and no
validation, so construction always succeeds; the `Except` result type makes
that fact statable. -/
def softRendererInit
    (image_size : ℕ) (anti_aliasing : Bool) (bg_color : Color3)
    (fill_back : Bool) (camera_mode : String)
    (K : Option Mat4) (rmat : Option Mat4) (tvec : Option Vec3)
    (perspective_distort : Bool)
    (sigma_val : ℝ) (dist_func : String) (dist_eps : ℝ) (gamma_val : ℝ)
    (aggr_func_rgb : String) (aggr_func_alpha : String)
    (texture_type : String)
    (viewing_angle : ℝ) (viewing_scale : ℝ)
    (eye_arg : Option Vec3) (camera_direction : Vec3)
    (near : ℝ) (far : ℝ) (light_mode : String)
    (light_intensity_ambient : ℝ) (light_intensity_directional : ℝ)
    (light_color_ambient : Color3) (light_color_directional : Color3)
    (light_direction : Vec3) (device : String) :
    Except String SoftRendererState :=
  .ok
    { image_size := image_size
      anti_aliasing := anti_aliasing
      bg_color := bg_color
      fill_back := fill_back
      device := device
      camera_mode := camera_mode
      K := if camera_mode = "projection" then K else none
      rmat := if camera_mode = "projection" then rmat else none
      tvec := if camera_mode = "projection" then tvec else none
      perspective_distort :=
        if camera_mode = "look" ∨ camera_mode = "look_at" then
          some perspective_distort
        else none
      viewing_angle :=
        if camera_mode = "look" ∨ camera_mode = "look_at" then
          some viewing_angle
        else none
      eye :=
        if camera_mode = "look" ∨ camera_mode = "look_at" then
          some ⟨0, 0, initEyeZ viewing_angle⟩
        else none
      camera_direction :=
        if camera_mode = "look" ∨ camera_mode = "look_at" then
          some ⟨0, 0, 1⟩
        else none
      near := near
      far := far
      sigma_val := sigma_val
      dist_func := dist_func
      dist_eps := dist_eps
      gamma_val := gamma_val
      aggr_func_rgb := aggr_func_rgb
      aggr_func_alpha := aggr_func_alpha
      texture_type := texture_type
      light_intensity_ambient := light_intensity_ambient
      light_intensity_directional := light_intensity_directional
      light_color_ambient := light_color_ambient
      light_color_directional := light_color_directional
      light_direction := light_direction
      rasterizer_eps := 1e-3 }

/-- The method `SoftRenderer.look_at` applied to a single vertex: subtract `eye`, then
right-multiply by `Rᵀ`, where the rows of `R` are the basis built with the
eps-guarded normalize (eps = 1e-5, as in the source). -/
def lookAtSingle (eye att up v : Vec3) : Vec3 :=
  let z_axis := normalizeEps 1e-5 (vsub att eye)
  let x_axis := normalizeEps 1e-5 (cross up z_axis)
  let y_axis := normalizeEps 1e-5 (cross z_axis x_axis)
  ⟨dot (vsub v eye) x_axis, dot (vsub v eye) y_axis, dot (vsub v eye) z_axis⟩

/-- The method `SoftRenderer.look_at`: one camera (the `eye.dim() == 1` path of the
source) broadcast across the batch and the vertices. -/
def look_at (vertices : Verts) (eye att up : Vec3) : Verts :=
  vertices.map (fun bv => bv.map (lookAtSingle eye att up))

/-- The method `SoftRenderer.look` applied to a single vertex: same basis construction
but `z` is the normalized `direction` directly. -/
def lookSingle (eye direction up v : Vec3) : Vec3 :=
  let z_axis := normalizeEps 1e-5 direction
  let x_axis := normalizeEps 1e-5 (cross up z_axis)
  let y_axis := normalizeEps 1e-5 (cross z_axis x_axis)
  ⟨dot (vsub v eye) x_axis, dot (vsub v eye) y_axis, dot (vsub v eye) z_axis⟩

/-- The method `SoftRenderer.look` on the default `up = None` path, which sets
`up = (0, 1, 0)`. -/
def look (vertices : Verts) (eye direction : Vec3) : Verts :=
  vertices.map (fun bv => bv.map (lookSingle eye direction ⟨0, 1, 0⟩))

/-- The width factor computed by `SoftRenderer.perspective_distortion`:
the source evaluates `torch.tan(angle * 180 / π)`. -/
def distortWidth (angle : ℝ) : ℝ := Real.tan (angle * 180 / Real.pi)

/-- The method `SoftRenderer.perspective_distortion`: divide x and y by `z · width`,
keep z unchanged. -/
def perspective_distortion (angle : ℝ) (vertices : Verts) : Verts :=
  vertices.map (fun bv => bv.map (fun v =>
    ⟨v.x / (v.z * distortWidth angle), v.y / (v.z * distortWidth angle), v.z⟩))

/-- The method `SoftRenderer.transform_to_camera_frame`.  The projection branch reads
the local variables `K`, `rmat`, `tvec`, which are never assigned and are
not parameters of the method, so Python raises `UnboundLocalError` there;
a `camera_mode` outside the three known strings matches no branch and the
vertices are returned unchanged. -/
def transform_to_camera_frame (s : SoftRendererState) (vertices : Verts) :
    Except String Verts :=
  if s.camera_mode = "look_at" then
    match s.eye with
    | some eye => .ok (look_at vertices eye ⟨0, 0, 0⟩ ⟨0, 1, 0⟩)
    | none => .error "AttributeError: eye"
  else if s.camera_mode = "look" then
    match s.eye, s.camera_direction with
    | some eye, some direction => .ok (look vertices eye direction)
    | _, _ => .error "AttributeError: eye"
  else if s.camera_mode = "projection" then
    .error "UnboundLocalError: local variable K referenced before assignment"
  else
    .ok vertices

/-- The method `SoftRenderer.project_to_image`.  The projection branch evaluates
`self.perspective_projection`, a method that does not exist, so Python
raises `AttributeError` there; a `camera_mode` outside the three known
strings matches no branch and the vertices are returned unchanged. -/
def project_to_image (s : SoftRendererState) (vertices : Verts) :
    Except String Verts :=
  if s.camera_mode = "look_at" then
    match s.viewing_angle with
    | some angle => .ok (perspective_distortion angle vertices)
    | none => .error "AttributeError: viewing_angle"
  else if s.camera_mode = "look" then
    match s.viewing_angle with
    | some angle => .ok (perspective_distortion angle vertices)
    | none => .error "AttributeError: viewing_angle"
  else if s.camera_mode = "projection" then
    .error "AttributeError: perspective_projection"
  else
    .ok vertices

/-- Indexing into a tensor's first dimension with PyTorch semantics: a
negative index counts from the end; an index outside `[-len, len)` raises
(`none`). -/
def torchIndex {α : Type} (xs : List α) (i : Int) : Option α :=
  if 0 ≤ i then xs[i.toNat]?
  else if -(xs.length : Int) ≤ i then xs[(i + xs.length).toNat]?
  else none

/-- Advanced indexing is all-or-nothing: if any element lookup raises, the
whole gather raises. -/
def gatherAll {α β : Type} (g : α → Option β) : List α → Option (List β)
  | [] => some []
  | a :: as =>
    match g a, gatherAll g as with
    | some b, some bs => some (b :: bs)
    | _, _ => none

/-- The method `SoftRenderer.vertices_to_faces`: shift each face index by
`batch_index · V` (`V = vertices.shape[1]`), flatten the vertices to a
`(B · V) × 3` tensor, and gather through the shifted indices. -/
def vertices_to_faces (vertices : Verts) (faces : Faces) :
    Option (List (List FaceVerts)) :=
  let V : ℕ := (vertices.headD []).length
  let flat : List Vec3 := vertices.flatten
  gatherAll (fun bf : ℕ × List Face =>
    gatherAll (fun f : Face =>
      match torchIndex flat (f.1 + (bf.1 * V : ℕ)),
            torchIndex flat (f.2.1 + (bf.1 * V : ℕ)),
            torchIndex flat (f.2.2 + (bf.1 * V : ℕ)) with
      | some a, some b, some c => some (a, b, c)
      | _, _, _ => none) bf.2) faces.enum

/-- Elementwise combination of two `B × F` tensors (matching shapes). -/
def tmap2 {α β γ : Type} (op : α → β → γ)
    (xs : List (List α)) (ys : List (List β)) : List (List γ) :=
  List.zipWith (List.zipWith op) xs ys

/-- Broadcast multiplication of a squeezed per-face lighting tensor
(`B × F × 3`) with a texture tensor (`B × F × sample-grid × 3`):
elementwise per channel, broadcast over the sample grid. -/
def texLightMul {S : Type} (light : List (List Color3))
    (textures : Textures S) : Textures S :=
  tmap2 (fun (lc : Color3) (t : TexElem S) =>
    (fun sIdx c => lc c * t sIdx c : TexElem S)) light textures

/-- Elementwise addition of two texture tensors. -/
def texAdd {S : Type} (a b : Textures S) : Textures S :=
  tmap2 (fun (t u : TexElem S) => (fun sIdx c => t sIdx c + u sIdx c : TexElem S)) a b

/-- The method `SoftRenderer.lighting`: gather the face corners, call the two external
light collaborators, squeeze the two singleton compatibility dimensions
(indices 2 and 3), and return
`ambient_lighting * textures + directional_lighting * textures`. -/
def lighting {S : Type} (s : SoftRendererState) (ambF dirF : LightFn S)
    (vertices : Verts) (faces : Faces) (textures : Textures S) :
    Option (Textures S) :=
  match vertices_to_faces vertices faces with
  | none => none
  | some faces_lighting =>
    let ambient_lighting :=
      ambF faces_lighting textures s.light_intensity_ambient s.light_color_ambient
    let directional_lighting :=
      dirF faces_lighting textures s.light_intensity_directional
        s.light_color_directional
    let ambient_sq : List (List Color3) :=
      ambient_lighting.map (fun bl => bl.map (fun g => g 0 0))
    let directional_sq : List (List Color3) :=
      directional_lighting.map (fun bl => bl.map (fun g => g 0 0))
    some (texAdd (texLightMul ambient_sq textures)
                 (texLightMul directional_sq textures))

/-- Reverse the corner order of one face
(`faces[:, :, list(reversed(range(3)))]`). -/
def revFace (f : Face) : Face := (f.2.2, f.2.1, f.1)

/-- Back-face filling of the faces: concatenate a mirrored-winding copy
along the face dimension (dim 1). -/
def fillBackFaces (faces : Faces) : Faces :=
  faces.map (fun bf => bf ++ bf.map revFace)

/-- Back-face filling of the textures: duplicate along the face dimension. -/
def fillBackTextures {S : Type} (textures : Textures S) : Textures S :=
  textures.map (fun bt => bt ++ bt)

/-- The method `SoftRenderer.render`.  Here `rast` is the external `soft_rasterize`
collaborator and `ambF`/`dirF` the external light collaborators.  The
per-call `K`/`rmat`/`tvec` parameters are accepted but never forwarded:
the camera methods are called with `vertices` as their only argument. -/
def render {S : Type} (s : SoftRendererState) (rast : RastFn S)
    (ambF dirF : LightFn S)
    (vertices : Verts) (faces : Faces) (textures : Textures S)
    (mode : Option String)
    (K : Option Mat4) (rmat : Option Mat4) (tvec : Option Vec3) :
    Except String RenderOut :=
  let faces1 := if s.fill_back then fillBackFaces faces else faces
  let textures1 := if s.fill_back then fillBackTextures textures else textures
  let texturesE : Except String (Textures S) :=
    if mode ≠ some "depth" ∧ mode ≠ some "silhouette" then
      match lighting s ambF dirF vertices faces1 textures1 with
      | some t => .ok t
      | none => .error "IndexError: face index out of range"
    else .ok textures1
  match texturesE with
  | .error e => .error e
  | .ok textures2 =>
    match transform_to_camera_frame s vertices with
    | .error e => .error e
    | .ok vertices1 =>
      match project_to_image s vertices1 with
      | .error e => .error e
      | .ok vertices2 =>
        let out := rast vertices2 textures2
        let rgb := out.map (fun b => b.take 3)
        match gatherAll (fun b => b[3]?) out with
        | none => .error "IndexError: channel 3 out of bounds"
        | some depth0 =>
          let depth : DepthOut :=
            if out.length = 1 then .inr (depth0.map (fun hw => [hw]))
            else .inl depth0
          .ok (rgb, depth, none)

/-! ## Concrete values used by witnesses and counterexamples -/

/-- Black background color (`torch.zeros(3)` default). -/
def bgZero : Color3 := fun _ => 0

/-- White light color (`torch.ones(3)` default). -/
def colorOne : Color3 := fun _ => 1

/-- State produced by a default construction
(`camera_mode = 'projection'`, all other arguments at their defaults). -/
def sProj : SoftRendererState where
  image_size := 256
  anti_aliasing := true
  bg_color := bgZero
  fill_back := true
  device := "cpu"
  camera_mode := "projection"
  K := none
  rmat := none
  tvec := none
  perspective_distort := none
  viewing_angle := none
  eye := none
  camera_direction := none
  near := 1
  far := 100
  sigma_val := 1e-5
  dist_func := "euclidean"
  dist_eps := 1e-4
  gamma_val := 1e-4
  aggr_func_rgb := "softmax"
  aggr_func_alpha := "prod"
  texture_type := "surface"
  light_intensity_ambient := 0.5
  light_intensity_directional := 0.5
  light_color_ambient := colorOne
  light_color_directional := colorOne
  light_direction := ⟨0, 1, 0⟩
  rasterizer_eps := 1e-3

/-- State produced by constructing with `camera_mode = 'look_at'` and all
other arguments at their defaults (viewing angle 30 degrees). -/
def sLookAt : SoftRendererState :=
  { sProj with
    camera_mode := "look_at"
    perspective_distort := some true
    viewing_angle := some 30
    eye := some ⟨0, 0, initEyeZ 30⟩
    camera_direction := some ⟨0, 0, 1⟩ }

/-- A concrete external rasterizer for witnesses: one batch item, four
channels, one pixel. -/
def rastConst : RastFn Unit := fun _ _ => [[[[0]], [[0]], [[0]], [[0]]]]

/-- A concrete external light collaborator for witnesses. -/
def lightConst : LightFn Unit := fun _ _ _ _ => [[fun _ _ _ => 1]]

/-- One batch with a single vertex. -/
def vertsConst : Verts := [[⟨0, 0, 1⟩]]

/-- One batch with a single (degenerate) face. -/
def facesConst : Faces := [[((0 : ℤ), (0 : ℤ), (0 : ℤ))]]

/-- One batch with a single constant texture block. -/
def texConst : Textures Unit := [[fun _ _ => (1 : ℝ)]]

/-- The vertex `vertices[b][i]` (with a default for out-of-range reads;
used only under in-range hypotheses). -/
def vertexAt (vertices : Verts) (b : ℕ) (i : Int) : Vec3 :=
  (vertices.getD b []).getD i.toNat ⟨0, 0, 0⟩

/-- Modelled from the spec: the look-at transform as the spec words it —
exact normalization `z = normalize(at - eye)`, `x = normalize(up × z)`,
`y = normalize(z × x)`, rotation rows `(x, y, z)`, result
`R · (vertex - eye)`. -/
def specLookAtSingle (eye att up v : Vec3) : Vec3 :=
  let z := vnormalize (vsub att eye)
  let x := vnormalize (cross up z)
  let y := vnormalize (cross z x)
  ⟨dot x (vsub v eye), dot y (vsub v eye), dot z (vsub v eye)⟩

/-! ## Claims -/

/-- C10: the `eye` constructor argument is never read, so two constructions
that differ only in `eye` yield identical renderer states (hence identical
behaviour in every mode). -/
theorem init_ignores_eye_argument
    (image_size : ℕ) (anti_aliasing : Bool) (bg_color : Color3)
    (fill_back : Bool) (camera_mode : String)
    (K : Option Mat4) (rmat : Option Mat4) (tvec : Option Vec3)
    (perspective_distort : Bool)
    (sigma_val : ℝ) (dist_func : String) (dist_eps : ℝ) (gamma_val : ℝ)
    (aggr_func_rgb : String) (aggr_func_alpha : String) (texture_type : String)
    (viewing_angle : ℝ) (viewing_scale : ℝ)
    (eye₁ eye₂ : Option Vec3) (camera_direction : Vec3)
    (near : ℝ) (far : ℝ) (light_mode : String)
    (light_intensity_ambient : ℝ) (light_intensity_directional : ℝ)
    (light_color_ambient : Color3) (light_color_directional : Color3)
    (light_direction : Vec3) (device : String) :
    softRendererInit image_size anti_aliasing bg_color fill_back camera_mode
      K rmat tvec perspective_distort sigma_val dist_func dist_eps gamma_val
      aggr_func_rgb aggr_func_alpha texture_type viewing_angle viewing_scale
      eye₁ camera_direction near far light_mode
      light_intensity_ambient light_intensity_directional
      light_color_ambient light_color_directional light_direction device =
    softRendererInit image_size anti_aliasing bg_color fill_back camera_mode
      K rmat tvec perspective_distort sigma_val dist_func dist_eps gamma_val
      aggr_func_rgb aggr_func_alpha texture_type viewing_angle viewing_scale
      eye₂ camera_direction near far light_mode
      light_intensity_ambient light_intensity_directional
      light_color_ambient light_color_directional light_direction device := rfl

/-- C2 counterexample: constructing with the unsupported camera mode
`"bogus"` succeeds (no configuration error is raised at construction). -/
theorem init_accepts_invalid_camera_mode :
    (softRendererInit 256 true bgZero true "bogus" none none none true
      1e-5 "euclidean" 1e-4 1e-4 "softmax" "prod" "surface" 30 1
      none ⟨0, 0, 1⟩ 1 100 "surface" 0.5 0.5 colorOne colorOne
      ⟨0, 1, 0⟩ "cpu").toOption.isSome = true := rfl

/-- C2 amended: an unsupported camera mode is accepted silently — the
constructor succeeds, and at render time both camera stages match no branch
and pass the vertices through unchanged. -/
theorem invalid_camera_mode_is_silent
    (image_size : ℕ) (anti_aliasing : Bool) (bg_color : Color3)
    (fill_back : Bool) (camera_mode : String)
    (K : Option Mat4) (rmat : Option Mat4) (tvec : Option Vec3)
    (perspective_distort : Bool)
    (sigma_val : ℝ) (dist_func : String) (dist_eps : ℝ) (gamma_val : ℝ)
    (aggr_func_rgb : String) (aggr_func_alpha : String) (texture_type : String)
    (viewing_angle : ℝ) (viewing_scale : ℝ)
    (eye_arg : Option Vec3) (camera_direction : Vec3)
    (near : ℝ) (far : ℝ) (light_mode : String)
    (light_intensity_ambient : ℝ) (light_intensity_directional : ℝ)
    (light_color_ambient : Color3) (light_color_directional : Color3)
    (light_direction : Vec3) (device : String) (vertices : Verts)
    (h1 : camera_mode ≠ "projection") (h2 : camera_mode ≠ "look")
    (h3 : camera_mode ≠ "look_at") :
    ∃ s, softRendererInit image_size anti_aliasing bg_color fill_back
        camera_mode K rmat tvec perspective_distort sigma_val dist_func
        dist_eps gamma_val aggr_func_rgb aggr_func_alpha texture_type
        viewing_angle viewing_scale eye_arg camera_direction near far
        light_mode light_intensity_ambient light_intensity_directional
        light_color_ambient light_color_directional light_direction device =
        .ok s ∧
      transform_to_camera_frame s vertices = .ok vertices ∧
      project_to_image s vertices = .ok vertices := by
  refine ⟨_, rfl, ?_, ?_⟩ <;>
    simp [transform_to_camera_frame, project_to_image, h1, h2, h3]

/-- C2 witness: the amended statement at the concrete mode `"bogus"`. -/
theorem invalid_camera_mode_is_silent_witness :
    ("bogus" : String) ≠ "projection" ∧ ("bogus" : String) ≠ "look" ∧
      ("bogus" : String) ≠ "look_at" ∧
    ∃ s, softRendererInit 256 true bgZero true "bogus" none none none true
        1e-5 "euclidean" 1e-4 1e-4 "softmax" "prod" "surface" 30 1
        none ⟨0, 0, 1⟩ 1 100 "surface" 0.5 0.5 colorOne colorOne
        ⟨0, 1, 0⟩ "cpu" = .ok s ∧
      transform_to_camera_frame s vertsConst = .ok vertsConst ∧
      project_to_image s vertsConst = .ok vertsConst :=
  ⟨by decide, by decide, by decide,
   invalid_camera_mode_is_silent 256 true bgZero true "bogus" none none none
     true 1e-5 "euclidean" 1e-4 1e-4 "softmax" "prod" "surface" 30 1
     none ⟨0, 0, 1⟩ 1 100 "surface" 0.5 0.5 colorOne colorOne
     ⟨0, 1, 0⟩ "cpu" vertsConst (by decide) (by decide) (by decide)⟩

/-- C4: the code's perspective-distortion width at the default 30-degree
viewing angle is `tan(30 · 180 / π)`; its tangent argument differs from the
degree-to-radian conversion `π · 30 / 180` that `__init__` itself uses to
place the eye, so the width is not `tan(30°)` as specified. -/
theorem perspective_distortion_conversion_bug :
    distortWidth 30 = Real.tan ((30 : ℝ) * 180 / Real.pi) ∧
    initEyeZ 30 = -(1 / Real.tan (Real.pi * 30 / 180) + 1) ∧
    (30 : ℝ) * 180 / Real.pi ≠ Real.pi * 30 / 180 := by
  refine ⟨rfl, rfl, fun h => ?_⟩
  have hpi : (0 : ℝ) < Real.pi := Real.pi_pos
  rw [div_eq_div_iff (ne_of_gt hpi) (by norm_num : (180 : ℝ) ≠ 0)] at h
  nlinarith [Real.pi_lt_d2, Real.pi_pos]

/-- C1: in projection mode the camera transform always raises — `K`,
`rmat`, `tvec` are unbound locals in `transform_to_camera_frame` (the
per-call overrides are never forwarded), so `render` fails instead of
applying `K` and `R^T · (X - t)`. -/
theorem projection_mode_render_raises {S : Type} (s : SoftRendererState)
    (rast : RastFn S) (ambF dirF : LightFn S) (vertices : Verts)
    (faces : Faces) (textures : Textures S)
    (K : Option Mat4) (rmat : Option Mat4) (tvec : Option Vec3)
    (h : s.camera_mode = "projection") :
    transform_to_camera_frame s vertices =
      .error "UnboundLocalError: local variable K referenced before assignment" ∧
    render s rast ambF dirF vertices faces textures (some "depth")
        K rmat tvec =
      .error "UnboundLocalError: local variable K referenced before assignment" := by
  constructor
  · simp [transform_to_camera_frame, h]
  · simp [render, transform_to_camera_frame, h]

/-- C1 witness: the default-constructed projection renderer fails on a
concrete mesh, with or without per-call camera parameters. -/
theorem projection_mode_render_raises_witness :
    sProj.camera_mode = "projection" ∧
    transform_to_camera_frame sProj vertsConst =
      .error "UnboundLocalError: local variable K referenced before assignment" ∧
    render sProj rastConst lightConst lightConst vertsConst facesConst
        texConst (some "depth") none none none =
      .error "UnboundLocalError: local variable K referenced before assignment" :=
  ⟨rfl, projection_mode_render_raises sProj rastConst lightConst lightConst
    vertsConst facesConst texConst none none none rfl⟩

/-- C5: with mode `'depth'` or `'silhouette'` the lighting stage is skipped
entirely, so the whole render result — in particular the depth channel — is
unchanged when every lighting configuration field and even the external
light collaborators themselves are replaced. -/
theorem depth_mode_independent_of_lighting {S : Type} (s : SoftRendererState)
    (lia lid : ℝ) (lca lcd : Color3) (ld : Vec3) (rast : RastFn S)
    (ambF₁ dirF₁ ambF₂ dirF₂ : LightFn S)
    (vertices : Verts) (faces : Faces) (textures : Textures S)
    (K : Option Mat4) (rmat : Option Mat4) (tvec : Option Vec3)
    (mode : Option String)
    (hmode : mode = some "depth" ∨ mode = some "silhouette") :
    render s rast ambF₁ dirF₁ vertices faces textures mode K rmat tvec =
    render { s with
              light_intensity_ambient := lia
              light_intensity_directional := lid
              light_color_ambient := lca
              light_color_directional := lcd
              light_direction := ld }
      rast ambF₂ dirF₂ vertices faces textures mode K rmat tvec := by
  rcases hmode with h | h <;> subst h <;> rfl

/-- C5 witness: a depth-mode render on the look_at renderer is unaffected
by replacing every lighting parameter and light collaborator. -/
theorem depth_mode_independent_of_lighting_witness :
    (some "depth" = some "depth" ∨ some "depth" = some "silhouette") ∧
    render sLookAt rastConst lightConst lightConst vertsConst facesConst
        texConst (some "depth") none none none =
      render { sLookAt with
                light_intensity_ambient := 0.9
                light_intensity_directional := 0.1
                light_color_ambient := bgZero
                light_color_directional := bgZero
                light_direction := ⟨1, 0, 0⟩ }
        rastConst (fun _ _ _ _ => []) (fun _ _ _ _ => [])
        vertsConst facesConst texConst (some "depth") none none none :=
  ⟨Or.inl rfl,
   depth_mode_independent_of_lighting sLookAt 0.9 0.1 bgZero bgZero ⟨1, 0, 0⟩
     rastConst lightConst lightConst (fun _ _ _ _ => []) (fun _ _ _ _ => [])
     vertsConst facesConst texConst none none none (some "depth")
     (Or.inl rfl)⟩

/-- C7: with `fill_back` enabled the face tensor is concatenated with a
reversed-winding copy along the face dimension (exactly doubling every
batch's face count) and the textures are duplicated to match; a
single-triangle mesh then renders identically to a mesh that already
contains both winding orders (rendered with `fill_back` disabled). -/
theorem fill_back_doubles_faces {S : Type} (s : SoftRendererState)
    (rast : RastFn S) (ambF dirF : LightFn S) (vertices : Verts)
    (f : Face) (t : TexElem S) (mode : Option String)
    (K : Option Mat4) (rmat : Option Mat4) (tvec : Option Vec3)
    (faces : Faces) (textures : Textures S)
    (h : s.fill_back = true) :
    (fillBackFaces faces).map List.length =
      faces.map (fun bf => 2 * bf.length) ∧
    (fillBackTextures textures).map List.length =
      textures.map (fun bt => 2 * bt.length) ∧
    render s rast ambF dirF vertices [[f]] [[t]] mode K rmat tvec =
      render { s with fill_back := false } rast ambF dirF vertices
        [[f, revFace f]] [[t, t]] mode K rmat tvec := by
  refine ⟨?_, ?_, ?_⟩
  · simp [fillBackFaces, List.map_map, Function.comp_def, two_mul]
  · simp [fillBackTextures, List.map_map, Function.comp_def, two_mul]
  · simp only [render, h, fillBackFaces, fillBackTextures, if_true,
      List.map_cons, List.map_nil, List.cons_append, List.nil_append]
    rfl

/-- C7 witness: the doubling equations and the single-triangle equivalence
at a concrete renderer, mesh and texture. -/
theorem fill_back_doubles_faces_witness :
    sLookAt.fill_back = true ∧
    ((fillBackFaces facesConst).map List.length =
        facesConst.map (fun bf => 2 * bf.length) ∧
      (fillBackTextures texConst).map List.length =
        texConst.map (fun bt => 2 * bt.length) ∧
      render sLookAt rastConst lightConst lightConst vertsConst
          [[((0 : ℤ), (1 : ℤ), (2 : ℤ))]] [[fun _ _ => (1 : ℝ)]]
          (some "depth") none none none =
        render { sLookAt with fill_back := false } rastConst lightConst
          lightConst vertsConst
          [[((0 : ℤ), (1 : ℤ), (2 : ℤ)), revFace ((0 : ℤ), (1 : ℤ), (2 : ℤ))]]
          [[fun _ _ => (1 : ℝ), fun _ _ => (1 : ℝ)]]
          (some "depth") none none none) :=
  ⟨rfl,
   fill_back_doubles_faces sLookAt rastConst lightConst lightConst vertsConst
     ((0 : ℤ), (1 : ℤ), (2 : ℤ)) (fun _ _ => (1 : ℝ)) (some "depth")
     none none none facesConst texConst rfl⟩

/-- C3 counterexample: a silhouette-mode render returns `alpha = None`
(no coverage channel) and still returns the RGB and depth channels — the
output channels are not sliced according to the mode. -/
theorem silhouette_mode_returns_none_alpha :
    render sLookAt rastConst lightConst lightConst vertsConst facesConst
        texConst (some "silhouette") none none none =
      .ok ([[[[0]], [[0]], [[0]]]], .inr [[[[0]]]], none) := rfl

/-- C3 amended: `render` performs no mode-based channel slicing: every
successful call returns `alpha = None` (with RGB and depth always present
as the first three channels and the fourth channel of the rasterizer
output), and the result depends on `mode` only through the lighting-skip
test for `'depth'`/`'silhouette'`. -/
theorem render_channels_ignore_mode {S : Type} (s : SoftRendererState)
    (rast : RastFn S) (ambF dirF : LightFn S) (vertices : Verts)
    (faces : Faces) (textures : Textures S)
    (K : Option Mat4) (rmat : Option Mat4) (tvec : Option Vec3) :
    (∀ (mode : Option String) (r : RenderOut),
      render s rast ambF dirF vertices faces textures mode K rmat tvec =
        .ok r → r.2.2 = none) ∧
    (∀ m₁ m₂ : Option String,
      ((m₁ = some "depth" ∨ m₁ = some "silhouette") ↔
        (m₂ = some "depth" ∨ m₂ = some "silhouette")) →
      render s rast ambF dirF vertices faces textures m₁ K rmat tvec =
        render s rast ambF dirF vertices faces textures m₂ K rmat tvec) := by
  constructor
  · intro mode r h
    simp only [render] at h
    repeat' split at h
    all_goals first
      | (injection h with h; subst h; rfl)
      | simp_all
  · intro m₁ m₂ hiff
    have hcond : (m₁ ≠ some "depth" ∧ m₁ ≠ some "silhouette") ↔
        (m₂ ≠ some "depth" ∧ m₂ ≠ some "silhouette") := by
      rw [← not_or, ← not_or]; exact not_congr hiff
    simp only [render]
    congr 1
    exact if_congr hcond rfl rfl

/-- C3 witness: at a concrete renderer and mesh, the alpha of a successful
silhouette render is `None`, and the `'rgb'` mode returns the same buffers
as `mode = None`. -/
theorem render_channels_ignore_mode_witness :
    (render sLookAt rastConst lightConst lightConst vertsConst facesConst
        texConst (some "silhouette") none none none =
      .ok ([[[[0]], [[0]], [[0]]]], .inr [[[[0]]]], none) →
      (([[[[0]], [[0]], [[0]]]], .inr [[[[0]]]], none) : RenderOut).2.2 =
        none) ∧
    ((some "rgb" = some "depth" ∨ some "rgb" = some "silhouette") ↔
      ((none : Option String) = some "depth" ∨
        (none : Option String) = some "silhouette")) ∧
    render sLookAt rastConst lightConst lightConst vertsConst facesConst
        texConst (some "rgb") none none none =
      render sLookAt rastConst lightConst lightConst vertsConst facesConst
        texConst none none none none :=
  ⟨fun h => (render_channels_ignore_mode sLookAt rastConst lightConst
      lightConst vertsConst facesConst texConst none none none).1
      (some "silhouette") _ h,
   by simp,
   (render_channels_ignore_mode sLookAt rastConst lightConst lightConst
      vertsConst facesConst texConst none none none).2
      (some "rgb") none (by simp)⟩

/-- Indexing a `zipWith` of two lists at a position where both are
defined. -/
theorem getElem?_zipWith_some {α β γ : Type} {op : α → β → γ}
    {xs : List α} {ys : List β} {i : ℕ} {a : α} {b : β}
    (hx : xs[i]? = some a) (hy : ys[i]? = some b) :
    (List.zipWith op xs ys)[i]? = some (op a b) := by
  rw [List.getElem?_zipWith', hx, hy]; rfl

/-- C8: whenever `lighting` succeeds, each output entry is the function
`(ambient + directional) * original_texture` per sample and channel, where
ambient/directional are the external lighting values with their two
singleton compatibility dimensions squeezed out; the code's form
`ambient * textures + directional * textures` distributes to the spec's
`(ambient + directional) * textures` over exact arithmetic. -/
theorem lighting_combines_ambient_directional {S : Type}
    (s : SoftRendererState) (ambF dirF : LightFn S) (vertices : Verts)
    (faces : Faces) (textures : Textures S)
    (fl : List (List FaceVerts)) (res : Textures S)
    (hfl : vertices_to_faces vertices faces = some fl)
    (hres : lighting s ambF dirF vertices faces textures = some res)
    (b f : ℕ) (bt : List (TexElem S)) (t : TexElem S)
    (ba bd : List LightRaw) (a d : LightRaw)
    (htb : textures[b]? = some bt) (htf : bt[f]? = some t)
    (hab : (ambF fl textures s.light_intensity_ambient
        s.light_color_ambient)[b]? = some ba)
    (haf : ba[f]? = some a)
    (hdb : (dirF fl textures s.light_intensity_directional
        s.light_color_directional)[b]? = some bd)
    (hdf : bd[f]? = some d)
    (sIdx : S) (c : Fin 3) :
    ∃ (resb : List (TexElem S)) (lt : TexElem S),
      res[b]? = some resb ∧ resb[f]? = some lt ∧
      lt sIdx c = (a 0 0 c + d 0 0 c) * t sIdx c := by
  simp only [lighting, hfl] at hres
  injection hres with hres
  subst hres
  have hab' : ((ambF fl textures s.light_intensity_ambient
      s.light_color_ambient).map (fun bl => bl.map (fun g => g 0 0)))[b]? =
      some (ba.map (fun g => g 0 0)) := by
    rw [List.getElem?_map, hab]; rfl
  have hdb' : ((dirF fl textures s.light_intensity_directional
      s.light_color_directional).map (fun bl => bl.map (fun g => g 0 0)))[b]? =
      some (bd.map (fun g => g 0 0)) := by
    rw [List.getElem?_map, hdb]; rfl
  have hA : (texLightMul ((ambF fl textures s.light_intensity_ambient
      s.light_color_ambient).map (fun bl => bl.map (fun g => g 0 0)))
      textures)[b]? =
      some (List.zipWith (fun (lc : Color3) (t' : TexElem S) =>
        (fun sIdx' c' => lc c' * t' sIdx' c' : TexElem S))
        (ba.map (fun g => g 0 0)) bt) := by
    simp only [texLightMul, tmap2]
    exact getElem?_zipWith_some hab' htb
  have hD : (texLightMul ((dirF fl textures s.light_intensity_directional
      s.light_color_directional).map (fun bl => bl.map (fun g => g 0 0)))
      textures)[b]? =
      some (List.zipWith (fun (lc : Color3) (t' : TexElem S) =>
        (fun sIdx' c' => lc c' * t' sIdx' c' : TexElem S))
        (bd.map (fun g => g 0 0)) bt) := by
    simp only [texLightMul, tmap2]
    exact getElem?_zipWith_some hdb' htb
  have hR : (texAdd
      (texLightMul ((ambF fl textures s.light_intensity_ambient
        s.light_color_ambient).map (fun bl => bl.map (fun g => g 0 0)))
        textures)
      (texLightMul ((dirF fl textures s.light_intensity_directional
        s.light_color_directional).map (fun bl => bl.map (fun g => g 0 0)))
        textures))[b]? =
      some (List.zipWith (fun (t' u' : TexElem S) =>
          (fun sIdx' c' => t' sIdx' c' + u' sIdx' c' : TexElem S))
        (List.zipWith (fun (lc : Color3) (t' : TexElem S) =>
          (fun sIdx' c' => lc c' * t' sIdx' c' : TexElem S))
          (ba.map (fun g => g 0 0)) bt)
        (List.zipWith (fun (lc : Color3) (t' : TexElem S) =>
          (fun sIdx' c' => lc c' * t' sIdx' c' : TexElem S))
          (bd.map (fun g => g 0 0)) bt)) := by
    simp only [texAdd, tmap2]
    exact getElem?_zipWith_some hA hD
  have haf' : (ba.map (fun g => g 0 0))[f]? = some (a 0 0) := by
    rw [List.getElem?_map, haf]; rfl
  have hdf' : (bd.map (fun g => g 0 0))[f]? = some (d 0 0) := by
    rw [List.getElem?_map, hdf]; rfl
  have hAf : (List.zipWith (fun (lc : Color3) (t' : TexElem S) =>
        (fun sIdx' c' => lc c' * t' sIdx' c' : TexElem S))
        (ba.map (fun g => g 0 0)) bt)[f]? =
      some (fun sIdx' c' => a 0 0 c' * t sIdx' c' : TexElem S) :=
    getElem?_zipWith_some haf' htf
  have hDf : (List.zipWith (fun (lc : Color3) (t' : TexElem S) =>
        (fun sIdx' c' => lc c' * t' sIdx' c' : TexElem S))
        (bd.map (fun g => g 0 0)) bt)[f]? =
      some (fun sIdx' c' => d 0 0 c' * t sIdx' c' : TexElem S) :=
    getElem?_zipWith_some hdf' htf
  have hRf : (List.zipWith (fun (t' u' : TexElem S) =>
          (fun sIdx' c' => t' sIdx' c' + u' sIdx' c' : TexElem S))
        (List.zipWith (fun (lc : Color3) (t' : TexElem S) =>
          (fun sIdx' c' => lc c' * t' sIdx' c' : TexElem S))
          (ba.map (fun g => g 0 0)) bt)
        (List.zipWith (fun (lc : Color3) (t' : TexElem S) =>
          (fun sIdx' c' => lc c' * t' sIdx' c' : TexElem S))
          (bd.map (fun g => g 0 0)) bt))[f]? =
      some (fun sIdx' c' =>
        a 0 0 c' * t sIdx' c' + d 0 0 c' * t sIdx' c' : TexElem S) :=
    getElem?_zipWith_some hAf hDf
  refine ⟨_, _, hR, hRf, ?_⟩
  show a 0 0 c * t sIdx c + d 0 0 c * t sIdx c =
    (a 0 0 c + d 0 0 c) * t sIdx c
  ring

/-- C8 witness: the combined lit texture at a concrete mesh, texture and
light collaborators. -/
theorem lighting_combines_ambient_directional_witness :
    (vertices_to_faces vertsConst facesConst =
      some [[(⟨0, 0, 1⟩, ⟨0, 0, 1⟩, ⟨0, 0, 1⟩)]]) ∧
    ∃ res : Textures Unit,
      lighting sLookAt lightConst lightConst vertsConst facesConst texConst =
        some res ∧
      ∃ (resb : List (TexElem Unit)) (lt : TexElem Unit),
        res[0]? = some resb ∧ resb[0]? = some lt ∧
        lt () 0 = ((fun _ _ _ => (1 : ℝ)) (0 : Fin 1) (0 : Fin 1) (0 : Fin 3) +
            (fun _ _ _ => (1 : ℝ)) (0 : Fin 1) (0 : Fin 1) (0 : Fin 3)) *
          (fun _ _ => (1 : ℝ)) () (0 : Fin 3) :=
  ⟨rfl,
   texAdd (texLightMul [[fun _ => (1 : ℝ)]] texConst)
     (texLightMul [[fun _ => (1 : ℝ)]] texConst),
   rfl,
   lighting_combines_ambient_directional sLookAt lightConst lightConst
     vertsConst facesConst texConst [[(⟨0, 0, 1⟩, ⟨0, 0, 1⟩, ⟨0, 0, 1⟩)]]
     (texAdd (texLightMul [[fun _ => (1 : ℝ)]] texConst)
       (texLightMul [[fun _ => (1 : ℝ)]] texConst))
     rfl rfl 0 0 [fun _ _ => (1 : ℝ)] (fun _ _ => (1 : ℝ))
     [fun _ _ _ => (1 : ℝ)] [fun _ _ _ => (1 : ℝ)]
     (fun _ _ _ => (1 : ℝ)) (fun _ _ _ => (1 : ℝ))
     rfl rfl rfl rfl rfl rfl () 0⟩

/-- A gather whose every element lookup succeeds returns the map of the
per-element values. -/
theorem gatherAll_eq_map {α β : Type} {g : α → Option β} {h : α → β} :
    ∀ {xs : List α}, (∀ a ∈ xs, g a = some (h a)) →
      gatherAll g xs = some (xs.map h)
  | [], _ => rfl
  | a :: as, H => by
    have h1 : g a = some (h a) := H a (List.mem_cons_self a as)
    have h2 : gatherAll g as = some (as.map h) :=
      gatherAll_eq_map (fun x hx => H x (List.mem_cons_of_mem a hx))
    simp [gatherAll, h1, h2]

/-- Indexing the flattened batch tensor at `b · V + i` reads batch `b` at
offset `i` when every batch has length `V`. -/
theorem flatten_getElem? {α : Type} {V : ℕ} :
    ∀ (L : List (List α)), (∀ l ∈ L, l.length = V) → ∀ (b i : ℕ),
      b < L.length → i < V → L.flatten[b * V + i]? = (L.getD b [])[i]?
  | [], _, b, _, hb, _ => absurd hb (by simp)
  | hd :: tl, hL, 0, i, hb, hi => by
    have hhd : hd.length = V := hL hd (List.mem_cons_self hd tl)
    rw [List.flatten_cons, Nat.zero_mul, Nat.zero_add,
        List.getElem?_append_left (by omega), List.getD_cons_zero]
  | hd :: tl, hL, b + 1, i, hb, hi => by
    have hhd : hd.length = V := hL hd (List.mem_cons_self hd tl)
    have harith : (b + 1) * V + i = hd.length + (b * V + i) := by
      rw [hhd]; ring
    rw [List.flatten_cons, harith, List.getElem?_append_right (by omega),
        Nat.add_sub_cancel_left, List.getD_cons_succ]
    exact flatten_getElem? tl (fun l hl => hL l (List.mem_cons_of_mem hd hl))
      b i (by simpa using hb) hi

/-- Defaulted list indexing agrees with plain indexing in range. -/
theorem getD_eq_getElem_of_lt {α : Type} (l : List α) (d : α) {n : ℕ}
    (h : n < l.length) : l.getD n d = l[n] := by
  rw [List.getD_eq_getElem?_getD, List.getElem?_eq_getElem h]
  rfl

/-- One shifted-index lookup of `vertices_to_faces`, when the raw index is
in range for its own batch. -/
theorem torchIndex_flatten_eq (vertices : Verts)
    (hrect : ∀ bv ∈ vertices, bv.length = (vertices.headD []).length)
    (b : ℕ) (hb : b < vertices.length) (i : Int) (h0 : 0 ≤ i)
    (hi : i < ((vertices.headD []).length : ℤ)) :
    torchIndex vertices.flatten
        (i + ((b * (vertices.headD []).length : ℕ) : ℤ)) =
      some (vertexAt vertices b i) := by
  have hV : i.toNat < (vertices.headD []).length := by omega
  rw [torchIndex, if_pos (by omega)]
  have ht : (i + ((b * (vertices.headD []).length : ℕ) : ℤ)).toNat =
      b * (vertices.headD []).length + i.toNat := by omega
  rw [ht, flatten_getElem? vertices hrect b i.toNat hb hV]
  have hlen : (vertices.getD b []).length = (vertices.headD []).length := by
    rw [List.getD_eq_getElem?_getD, List.getElem?_eq_getElem hb]
    exact hrect _ (List.getElem_mem hb)
  rw [List.getElem?_eq_getElem (by omega)]
  simp only [vertexAt]
  congr 1
  exact (getD_eq_getElem_of_lt _ _ (by omega)).symm

/-- C9 counterexample: a face index out of bounds for its own batch does
not make the gather fail — with `B = 2, V = 1`, the index `1` in batch 0
lands on batch 1's flattened slot, so `vertices_to_faces` succeeds and
silently returns batch 1's vertex as a corner of a batch-0 face. -/
theorem vertices_to_faces_cross_batch_leak :
    ¬((1 : ℤ) < ((([[(⟨10, 10, 10⟩ : Vec3)], [⟨20, 20, 20⟩]] : Verts).headD
        []).length : ℤ)) ∧
    vertices_to_faces [[⟨10, 10, 10⟩], [⟨20, 20, 20⟩]]
        [[((1 : ℤ), (0 : ℤ), (0 : ℤ))], [((0 : ℤ), (0 : ℤ), (0 : ℤ))]] =
      some [[(⟨20, 20, 20⟩, ⟨10, 10, 10⟩, ⟨10, 10, 10⟩)],
            [(⟨20, 20, 20⟩, ⟨20, 20, 20⟩, ⟨20, 20, 20⟩)]] :=
  ⟨by norm_num, rfl⟩

/-- C9 amended: the gather fails only when a shifted flat index leaves the
flattened `B · V` range (an out-of-batch index inside that range silently
reads another batch); under the invariant that every face index is in
`[0, V)` for its batch, it succeeds and entry `(b, f, c)` is
`vertices[b][faces[b][f][c]]`. -/
theorem vertices_to_faces_in_range (vertices : Verts) (faces : Faces)
    (hB : faces.length = vertices.length)
    (hrect : ∀ bv ∈ vertices, bv.length = (vertices.headD []).length)
    (hidx : ∀ bf ∈ faces, ∀ f ∈ bf,
      (0 ≤ f.1 ∧ f.1 < ((vertices.headD []).length : ℤ)) ∧
      (0 ≤ f.2.1 ∧ f.2.1 < ((vertices.headD []).length : ℤ)) ∧
      (0 ≤ f.2.2 ∧ f.2.2 < ((vertices.headD []).length : ℤ))) :
    vertices_to_faces vertices faces =
      some (faces.enum.map (fun bf => bf.2.map (fun f =>
        (vertexAt vertices bf.1 f.1, vertexAt vertices bf.1 f.2.1,
         vertexAt vertices bf.1 f.2.2)))) := by
  simp only [vertices_to_faces]
  apply gatherAll_eq_map
  intro bf hbf
  have hmem : faces[bf.1]? = some bf.2 := List.mem_enum_iff_getElem?.mp hbf
  obtain ⟨hblt, hbval⟩ := List.getElem?_eq_some_iff.mp hmem
  have hbf2 : bf.2 ∈ faces := hbval ▸ List.getElem_mem hblt
  have hbv : bf.1 < vertices.length := hB ▸ hblt
  apply gatherAll_eq_map
  intro f hf
  obtain ⟨⟨h01, hlt1⟩, ⟨h02, hlt2⟩, ⟨h03, hlt3⟩⟩ := hidx bf.2 hbf2 f hf
  rw [torchIndex_flatten_eq vertices hrect bf.1 hbv f.1 h01 hlt1,
      torchIndex_flatten_eq vertices hrect bf.1 hbv f.2.1 h02 hlt2,
      torchIndex_flatten_eq vertices hrect bf.1 hbv f.2.2 h03 hlt3]

/-- C9 witness: the in-range gather equation at a concrete two-vertex
batch. -/
theorem vertices_to_faces_in_range_witness :
    (([[((0 : ℤ), (1 : ℤ), (1 : ℤ))]] : Faces).length =
      ([[⟨1, 0, 0⟩, ⟨2, 0, 0⟩]] : Verts).length) ∧
    (∀ bv ∈ ([[⟨1, 0, 0⟩, ⟨2, 0, 0⟩]] : Verts),
      bv.length = (([[⟨1, 0, 0⟩, ⟨2, 0, 0⟩]] : Verts).headD []).length) ∧
    (∀ bf ∈ ([[((0 : ℤ), (1 : ℤ), (1 : ℤ))]] : Faces), ∀ f ∈ bf,
      (0 ≤ f.1 ∧ f.1 <
        ((([[⟨1, 0, 0⟩, ⟨2, 0, 0⟩]] : Verts).headD []).length : ℤ)) ∧
      (0 ≤ f.2.1 ∧ f.2.1 <
        ((([[⟨1, 0, 0⟩, ⟨2, 0, 0⟩]] : Verts).headD []).length : ℤ)) ∧
      (0 ≤ f.2.2 ∧ f.2.2 <
        ((([[⟨1, 0, 0⟩, ⟨2, 0, 0⟩]] : Verts).headD []).length : ℤ))) ∧
    vertices_to_faces [[⟨1, 0, 0⟩, ⟨2, 0, 0⟩]] [[((0 : ℤ), (1 : ℤ), (1 : ℤ))]] =
      some (([[((0 : ℤ), (1 : ℤ), (1 : ℤ))]] : Faces).enum.map
        (fun bf => bf.2.map (fun f =>
          (vertexAt [[⟨1, 0, 0⟩, ⟨2, 0, 0⟩]] bf.1 f.1,
           vertexAt [[⟨1, 0, 0⟩, ⟨2, 0, 0⟩]] bf.1 f.2.1,
           vertexAt [[⟨1, 0, 0⟩, ⟨2, 0, 0⟩]] bf.1 f.2.2)))) := by
  have h1 : (([[((0 : ℤ), (1 : ℤ), (1 : ℤ))]] : Faces).length =
      ([[⟨1, 0, 0⟩, ⟨2, 0, 0⟩]] : Verts).length) := rfl
  have h2 : ∀ bv ∈ ([[⟨1, 0, 0⟩, ⟨2, 0, 0⟩]] : Verts),
      bv.length = (([[⟨1, 0, 0⟩, ⟨2, 0, 0⟩]] : Verts).headD []).length := by
    intro bv hbv
    rw [List.mem_singleton] at hbv
    subst hbv; rfl
  have h3 : ∀ bf ∈ ([[((0 : ℤ), (1 : ℤ), (1 : ℤ))]] : Faces), ∀ f ∈ bf,
      (0 ≤ f.1 ∧ f.1 <
        ((([[⟨1, 0, 0⟩, ⟨2, 0, 0⟩]] : Verts).headD []).length : ℤ)) ∧
      (0 ≤ f.2.1 ∧ f.2.1 <
        ((([[⟨1, 0, 0⟩, ⟨2, 0, 0⟩]] : Verts).headD []).length : ℤ)) ∧
      (0 ≤ f.2.2 ∧ f.2.2 <
        ((([[⟨1, 0, 0⟩, ⟨2, 0, 0⟩]] : Verts).headD []).length : ℤ)) := by
    intro bf hbf f hf
    rw [List.mem_singleton] at hbf
    subst hbf
    rw [List.mem_singleton] at hf
    subst hf
    norm_num
  exact ⟨h1, h2, h3,
    vertices_to_faces_in_range [[⟨1, 0, 0⟩, ⟨2, 0, 0⟩]]
      [[((0 : ℤ), (1 : ℤ), (1 : ℤ))]] h1 h2 h3⟩

/-- The inner product is symmetric. -/
theorem dot_comm (a b : Vec3) : dot a b = dot b a := by
  simp only [dot]; ring

/-- Squared norms are nonnegative. -/
theorem dot_self_nonneg (v : Vec3) : 0 ≤ dot v v := by
  simp only [dot]
  nlinarith [mul_self_nonneg v.x, mul_self_nonneg v.y, mul_self_nonneg v.z]

/-- Norm evaluation through a known square. -/
theorem vnorm_eval (v : Vec3) (r : ℝ) (hr : 0 ≤ r) (h : dot v v = r ^ 2) :
    vnorm v = r := by
  rw [vnorm, h, Real.sqrt_sq hr]

/-- The norm scales by the absolute value of the scalar. -/
theorem vnorm_scale (c : ℝ) (v : Vec3) : vnorm (vscale c v) = |c| * vnorm v := by
  simp only [vnorm, vscale, dot]
  rw [show c * v.x * (c * v.x) + c * v.y * (c * v.y) + c * v.z * (c * v.z) =
      c ^ 2 * (v.x * v.x + v.y * v.y + v.z * v.z) by ring,
    Real.sqrt_mul (sq_nonneg c), Real.sqrt_sq_eq_abs]

/-- An exactly normalized vector of positive norm is a unit vector. -/
theorem vnorm_vnormalize (v : Vec3) (h : 0 < vnorm v) :
    vnorm (vnormalize v) = 1 := by
  rw [vnormalize, vnorm_scale, abs_of_pos (one_div_pos.mpr h), one_div,
    inv_mul_cancel₀ (ne_of_gt h)]

/-- The eps-guarded normalize is the exact normalize when the norm clears
the eps threshold. -/
theorem normalizeEps_eq {eps : ℝ} (v : Vec3) (h : eps ≤ vnorm v) :
    normalizeEps eps v = vnormalize v := by
  rw [normalizeEps, vnormalize, max_eq_left h]

/-- Scalars move out of the second inner-product argument. -/
theorem dot_scale_right (a : Vec3) (c : ℝ) (b : Vec3) :
    dot a (vscale c b) = c * dot a b := by
  simp only [dot, vscale]; ring

/-- A vector is orthogonal to any cross product it enters. -/
theorem dot_cross_right (u w : Vec3) : dot w (cross u w) = 0 := by
  simp only [dot, cross]; ring

/-- Lagrange identity for the cross product. -/
theorem dot_cross_sq (u w : Vec3) :
    dot (cross u w) (cross u w) = dot u u * dot w w - dot u w ^ 2 := by
  simp only [dot, cross]; ring

/-- A unit vector has unit squared norm. -/
theorem dot_self_eq_one (v : Vec3) (h : vnorm v = 1) : dot v v = 1 := by
  have h2 := congrArg (fun t => t ^ 2) h
  simpa [vnorm, Real.sq_sqrt (dot_self_nonneg v)] using h2

/-- A vector is orthogonal to the normalized cross product it enters. -/
theorem dot_vnormalize_cross (u w : Vec3) :
    dot w (vnormalize (cross u w)) = 0 := by
  rw [vnormalize, dot_scale_right, dot_cross_right, mul_zero]

/-- The source's eps-guarded look-at agrees with the spec's exact
rotation whenever the two normalized vectors clear the eps threshold. -/
theorem lookAtSingle_eq_spec (eye att up v : Vec3)
    (h1 : 1e-5 ≤ vnorm (vsub att eye))
    (h2 : 1e-5 ≤ vnorm (cross up (vnormalize (vsub att eye)))) :
    lookAtSingle eye att up v = specLookAtSingle eye att up v := by
  have e1 : normalizeEps 1e-5 (vsub att eye) = vnormalize (vsub att eye) :=
    normalizeEps_eq _ h1
  have e2 : normalizeEps 1e-5 (cross up (vnormalize (vsub att eye))) =
      vnormalize (cross up (vnormalize (vsub att eye))) :=
    normalizeEps_eq _ h2
  have hz1 : vnorm (vnormalize (vsub att eye)) = 1 :=
    vnorm_vnormalize _ (lt_of_lt_of_le (by norm_num) h1)
  have hx1 : vnorm (vnormalize (cross up (vnormalize (vsub att eye)))) = 1 :=
    vnorm_vnormalize _ (lt_of_lt_of_le (by norm_num) h2)
  have hc : vnorm (cross (vnormalize (vsub att eye))
      (vnormalize (cross up (vnormalize (vsub att eye))))) = 1 := by
    apply vnorm_eval _ _ (by norm_num)
    rw [dot_cross_sq, dot_self_eq_one _ hz1, dot_self_eq_one _ hx1,
      dot_vnormalize_cross]
    norm_num
  have e3 : normalizeEps 1e-5 (cross (vnormalize (vsub att eye))
        (vnormalize (cross up (vnormalize (vsub att eye))))) =
      vnormalize (cross (vnormalize (vsub att eye))
        (vnormalize (cross up (vnormalize (vsub att eye))))) :=
    normalizeEps_eq _ (by rw [hc]; norm_num)
  simp only [lookAtSingle, specLookAtSingle, e1, e2, e3, Vec3.mk.injEq]
  exact ⟨dot_comm _ _, dot_comm _ _, dot_comm _ _⟩

/-- C6 counterexample: with `at = (0,0,0)`, `eye = (0,0,-d)`, `up = (0,1,0)`
and `d = 1e-6` the geometry is non-degenerate (`at ≠ eye`, `up` not
parallel to `at - eye`), yet the vertex at the origin does not map to
`(0,0,d)`: the eps-guarded normalize (eps = 1e-5) divides by the threshold
instead of the true norm, and the z-coordinate comes out as `1e-7`. -/
theorem look_at_small_distance_counterexample :
    (vsub ⟨0, 0, 0⟩ ⟨0, 0, -(1e-6)⟩ : Vec3) ≠ ⟨0, 0, 0⟩ ∧
    cross ⟨0, 1, 0⟩ (vsub ⟨0, 0, 0⟩ ⟨0, 0, -(1e-6)⟩) ≠ ⟨0, 0, 0⟩ ∧
    (lookAtSingle ⟨0, 0, -(1e-6)⟩ ⟨0, 0, 0⟩ ⟨0, 1, 0⟩ ⟨0, 0, 0⟩).z ≠ 1e-6 := by
  refine ⟨?_, ?_, ?_⟩
  · intro h
    have hz := congrArg Vec3.z h
    simp only [vsub] at hz
    norm_num at hz
  · intro h
    have hx := congrArg Vec3.x h
    simp only [vsub, cross] at hx
    norm_num at hx
  · have hn : vnorm (vsub ⟨0, 0, 0⟩ ⟨0, 0, -(1e-6)⟩) = 1e-6 :=
      vnorm_eval _ _ (by norm_num) (by simp only [vsub, dot]; norm_num)
    show dot (vsub ⟨0, 0, 0⟩ ⟨0, 0, -(1e-6)⟩)
      (normalizeEps 1e-5 (vsub ⟨0, 0, 0⟩ ⟨0, 0, -(1e-6)⟩)) ≠ 1e-6
    simp only [normalizeEps]
    rw [hn, show max (1e-6 : ℝ) 1e-5 = 1e-5 from max_eq_right (by norm_num)]
    simp only [vsub, vscale, dot]
    norm_num

/-- C6 amended: provided the two normalized vectors clear the source's
eps threshold (`‖at - eye‖ ≥ 1e-5` and `‖up × z‖ ≥ 1e-5`), `look_at` maps
every vertex of every batch to `R · (v - eye)` with the exactly
orthonormal basis `z = normalize(at - eye)`, `x = normalize(up × z)`,
`y = normalize(z × x)` as rotation rows; in particular (witness) with
`eye = (0,0,-2)` the origin maps to `(0,0,2)`. -/
theorem look_at_matches_spec_rotation (vertices : Verts) (eye att up : Vec3)
    (h1 : 1e-5 ≤ vnorm (vsub att eye))
    (h2 : 1e-5 ≤ vnorm (cross up (vnormalize (vsub att eye)))) :
    look_at vertices eye att up =
      vertices.map (fun bv => bv.map (specLookAtSingle eye att up)) := by
  have hfun : lookAtSingle eye att up = specLookAtSingle eye att up :=
    funext (fun v => lookAtSingle_eq_spec eye att up v h1 h2)
  rw [look_at, hfun]

/-- C6 witness: the translation-only case `eye = (0,0,-2)`, `at = (0,0,0)`,
`up = (0,1,0)`: the hypotheses hold, the theorem applies, and the vertex at
the origin lands at `(0, 0, 2)`. -/
theorem look_at_matches_spec_rotation_witness :
    (1e-5 ≤ vnorm (vsub ⟨0, 0, 0⟩ ⟨0, 0, -2⟩)) ∧
    (1e-5 ≤ vnorm (cross ⟨0, 1, 0⟩ (vnormalize (vsub ⟨0, 0, 0⟩ ⟨0, 0, -2⟩)))) ∧
    look_at [[⟨0, 0, 0⟩]] ⟨0, 0, -2⟩ ⟨0, 0, 0⟩ ⟨0, 1, 0⟩ =
      ([[⟨0, 0, 0⟩]] : Verts).map
        (fun bv => bv.map (specLookAtSingle ⟨0, 0, -2⟩ ⟨0, 0, 0⟩ ⟨0, 1, 0⟩)) ∧
    specLookAtSingle ⟨0, 0, -2⟩ ⟨0, 0, 0⟩ ⟨0, 1, 0⟩ ⟨0, 0, 0⟩ = ⟨0, 0, 2⟩ := by
  have hv : (vsub ⟨0, 0, 0⟩ ⟨0, 0, -2⟩ : Vec3) = ⟨0, 0, 2⟩ := by
    simp only [vsub, Vec3.mk.injEq]; norm_num
  have hn : vnorm (⟨0, 0, 2⟩ : Vec3) = 2 :=
    vnorm_eval _ _ (by norm_num) (by simp only [dot]; norm_num)
  have hz : vnormalize (⟨0, 0, 2⟩ : Vec3) = ⟨0, 0, 1⟩ := by
    rw [vnormalize, hn]; simp only [vscale, Vec3.mk.injEq]; norm_num
  have hc : cross ⟨0, 1, 0⟩ (⟨0, 0, 1⟩ : Vec3) = ⟨1, 0, 0⟩ := by
    simp only [cross, Vec3.mk.injEq]; norm_num
  have hnc : vnorm (⟨1, 0, 0⟩ : Vec3) = 1 :=
    vnorm_eval _ _ (by norm_num) (by simp only [dot]; norm_num)
  have h1 : (1e-5 : ℝ) ≤ vnorm (vsub ⟨0, 0, 0⟩ ⟨0, 0, -2⟩) := by
    rw [hv, hn]; norm_num
  have h2 : (1e-5 : ℝ) ≤
      vnorm (cross ⟨0, 1, 0⟩ (vnormalize (vsub ⟨0, 0, 0⟩ ⟨0, 0, -2⟩))) := by
    rw [hv, hz, hc, hnc]; norm_num
  refine ⟨h1, h2,
    look_at_matches_spec_rotation [[⟨0, 0, 0⟩]] ⟨0, 0, -2⟩ ⟨0, 0, 0⟩
      ⟨0, 1, 0⟩ h1 h2, ?_⟩
  have hx : vnormalize (⟨1, 0, 0⟩ : Vec3) = ⟨1, 0, 0⟩ := by
    rw [vnormalize, hnc]; simp only [vscale, Vec3.mk.injEq]; norm_num
  have hzx : cross ⟨0, 0, 1⟩ (⟨1, 0, 0⟩ : Vec3) = ⟨0, 1, 0⟩ := by
    simp only [cross, Vec3.mk.injEq]; norm_num
  have hny : vnorm (⟨0, 1, 0⟩ : Vec3) = 1 :=
    vnorm_eval _ _ (by norm_num) (by simp only [dot]; norm_num)
  have hy : vnormalize (⟨0, 1, 0⟩ : Vec3) = ⟨0, 1, 0⟩ := by
    rw [vnormalize, hny]; simp only [vscale, Vec3.mk.injEq]; norm_num
  simp only [specLookAtSingle, hv, hz, hc, hx, hzx, hy]
  simp only [dot, Vec3.mk.injEq]
  norm_num

end KaolinSoftRenderer
